import Mathlib

set_option maxHeartbeats 1000000

/-!
Formal model of the asynchronous ingestion job pipeline of the Quiz-Rag
fast-api repository.

The definitions below are a shallow embedding of:
  - app/services/queue_manager.py  (the Redis-backed job store),
  - app/workers/tasks.py           (the single-document pipeline executor
                                    and the batch coordinator),
  - app/services/embed_utils.py    (the ChromaDB storage step).

The Redis store is modelled as a partial map from keys to decoded job
records; Python exceptions that the code can raise are modelled with an
Except monad; Python truthiness checks on optional strings and dicts are
modelled explicitly.  Timestamps, file contents, and the external
collaborators (text extraction, chunking, the embedding provider) are
treated as opaque inputs, exactly as the spec treats them.
-/

/-! ### Data model: app/models/job.py -/

/-- Translation of the JobStatus enum in app/models/job.py. -/
inductive JobStatus
  | queued
  | processing
  | completed
  | failed
  | partiallyCompleted
deriving DecidableEq, Repr

/-- The string value of each JobStatus member (its .value in Python). -/
def statusValue : JobStatus → String
  | .queued => "queued"
  | .processing => "processing"
  | .completed => "completed"
  | .failed => "failed"
  | .partiallyCompleted => "partially_completed"

/-- A status is terminal when it is COMPLETED, FAILED or PARTIALLY_COMPLETED. -/
def isTerminal : JobStatus → Bool
  | .completed => true
  | .failed => true
  | .partiallyCompleted => true
  | _ => false

/-- Translation of the JobProgress model (app/models/job.py). -/
structure JobProgress where
  current_step : String
  percentage : ℚ
  chunks_processed : ℕ
  total_chunks : ℕ
deriving DecidableEq, Repr

/-- Translation of the JobMetadata model (app/models/job.py). -/
structure JobMetadata where
  chunks_count : ℕ
  text_length : ℕ
  processing_time_seconds : ℚ
deriving DecidableEq, Repr

/-- Translation of the BatchFileInfo model (app/models/job.py); the status
field ranges over the strings pending, processing, completed, failed. -/
structure BatchFileInfo where
  name : String
  status : String
  chunks : ℕ
  error : Option String
deriving DecidableEq, Repr

/-- Translation of the BatchInfo model (app/models/job.py). -/
structure BatchInfo where
  total_files : ℕ
  processed_files : ℕ
  current_file : Option String
  overall_progress : ℚ
  files : List BatchFileInfo
deriving DecidableEq, Repr

/-- The decoded JSON record stored under one Redis key by
QueueManager.  Single-document records carry file_path and no batch
fields; batch records carry file_paths, is_batch and batch, exactly as
built by create_job and create_batch_job in app/services/queue_manager.py. -/
structure JobData where
  job_id : String
  status : JobStatus
  file_name : String
  file_type : String
  file_path : Option String
  file_paths : Option (List String)
  collection_name : String
  created_at : String
  started_at : Option String
  completed_at : Option String
  progress : Option JobProgress
  metadata : Option JobMetadata
  error : Option String
  is_batch : Bool
  batch : Option BatchInfo
deriving DecidableEq, Repr

/-- The Redis key space of the job store: a record per key, or nothing (a
key that was never written, was deleted, or whose TTL elapsed). -/
def Store : Type := String → Option JobData

/-- Writing one record under one key (Redis setex, TTL kept abstract). -/
def Store.set (s : Store) (k : String) (d : JobData) : Store :=
  fun k' => if k' = k then some d else s k'

/-- A store with no records at all. -/
def emptyStore : Store := fun _ => none

/-- Python exceptions that the modelled queue-manager code can raise. -/
inductive PyError
  | zeroDivisionError
  | keyError
deriving DecidableEq, Repr

/-! ### Job store operations: app/services/queue_manager.py -/

/-- Python assignment guarded by a truthiness test on a datetime argument:
a provided value always overwrites, an absent one keeps the old value
(the `if started_at:` / `if completed_at:` pattern of update_job_status). -/
def applyOptStr (cur : Option String) (arg : Option String) : Option String :=
  match arg with
  | some s => some s
  | none => cur

/-- Python assignment guarded by `if error:` on an optional string: None
and the empty string are falsy, so neither overwrites the stored value. -/
def applyErrArg (cur : Option String) (arg : Option String) : Option String :=
  match arg with
  | some e => if e = "" then cur else some e
  | none => cur

/-- Translation of QueueManager.create_job.  The fresh UUID and the
creation timestamp are produced outside the store, so they enter as
arguments; the written record is the job_data dict of the source. -/
def create_job (store : Store) (job_id file_name file_type file_path
    collection_name created_at : String) : Store × String :=
  (Store.set store job_id
    { job_id := job_id
      status := .queued
      file_name := file_name
      file_type := file_type
      file_path := some file_path
      file_paths := none
      collection_name := collection_name
      created_at := created_at
      started_at := none
      completed_at := none
      progress := none
      metadata := none
      error := none
      is_batch := false
      batch := none },
   job_id)

/-- Translation of QueueManager.update_job_status: a missing key returns
False without writing; otherwise status is overwritten and each optional
argument is applied under its Python truthiness guard, then the record is
written back. -/
def update_job_status (store : Store) (job_id : String) (status : JobStatus)
    (started_at completed_at : Option String) (error : Option String)
    (metadata : Option JobMetadata) : Except PyError (Store × Bool) :=
  match store job_id with
  | none => .ok (store, false)
  | some d =>
      .ok (Store.set store job_id
        { d with
          status := status
          started_at := applyOptStr d.started_at started_at
          completed_at := applyOptStr d.completed_at completed_at
          error := applyErrArg d.error error
          metadata := match metadata with | some m => some m | none => d.metadata },
        true)

/-- Translation of QueueManager.update_job_progress: a missing key returns
False; otherwise the whole progress sub-object is replaced. -/
def update_job_progress (store : Store) (job_id current_step : String)
    (percentage : ℚ) (chunks_processed total_chunks : ℕ) :
    Except PyError (Store × Bool) :=
  match store job_id with
  | none => .ok (store, false)
  | some d =>
      .ok (Store.set store job_id
        { d with
          progress := some
            { current_step := current_step
              percentage := percentage
              chunks_processed := chunks_processed
              total_chunks := total_chunks } },
        true)

/-- Translation of QueueManager.get_job_file_path (internal accessor). -/
def get_job_file_path (store : Store) (job_id : String) : Option String :=
  match store job_id with
  | none => none
  | some d => d.file_path

/-- One file of a batch-upload request: the dicts with path, name and type
that the API hands to create_batch_job and to the batch task. -/
structure UploadFileInfo where
  path : String
  name : String
  ftype : String
deriving DecidableEq, Repr

/-- Translation of QueueManager.create_batch_job: seeds one pending
BatchFileEntry per input file; total_files is fixed to the length of the
input list (which may be empty). -/
def create_batch_job (store : Store) (job_id : String)
    (files : List UploadFileInfo) (collection_name created_at : String) :
    Store × String :=
  (Store.set store job_id
    { job_id := job_id
      status := .queued
      file_name := "batch_" ++ toString files.length ++ "_files"
      file_type := "batch"
      file_path := none
      file_paths := some (files.map UploadFileInfo.path)
      collection_name := collection_name
      created_at := created_at
      started_at := none
      completed_at := none
      progress := none
      metadata := none
      error := none
      is_batch := true
      batch := some
        { total_files := files.length
          processed_files := 0
          current_file := none
          overall_progress := 0
          files := files.map (fun f =>
            { name := f.name, status := "pending", chunks := 0, error := none }) } },
   job_id)

/-- The for-loop of update_batch_file_status: mutate the first entry whose
name matches (status and chunks always, error only when truthy) and stop. -/
def updateFileEntry (files : List BatchFileInfo) (file_name status : String)
    (chunks : ℕ) (error : Option String) : List BatchFileInfo :=
  match files with
  | [] => []
  | f :: rest =>
      if f.name = file_name then
        { f with
          status := status
          chunks := chunks
          error := applyErrArg f.error error } :: rest
      else
        f :: updateFileEntry rest file_name status chunks error

/-- Translation of QueueManager.update_batch_file_status: missing key or a
non-batch record returns False; a record flagged is_batch without a batch
sub-object would raise KeyError in Python; otherwise the matching file
entry is updated, current_file is set when the new status is processing,
and the record is written back. -/
def update_batch_file_status (store : Store) (job_id file_name status : String)
    (chunks : ℕ) (error : Option String) : Except PyError (Store × Bool) :=
  match store job_id with
  | none => .ok (store, false)
  | some d =>
      if d.is_batch = false then .ok (store, false)
      else
        match d.batch with
        | none => .error .keyError
        | some b =>
            .ok (Store.set store job_id
              { d with
                batch := some
                  { b with
                    files := updateFileEntry b.files file_name status chunks error
                    current_file :=
                      if status = "processing" then some file_name else b.current_file } },
              true)

/-- Translation of QueueManager.update_batch_progress: missing key or a
non-batch record returns False; otherwise processed_files is overwritten
and overall_progress is recomputed as processed_files / total_files * 100.
The Python division raises ZeroDivisionError when total_files is 0, before
anything is written back. -/
def update_batch_progress (store : Store) (job_id : String)
    (processed_files : ℕ) : Except PyError (Store × Bool) :=
  match store job_id with
  | none => .ok (store, false)
  | some d =>
      if d.is_batch = false then .ok (store, false)
      else
        match d.batch with
        | none => .error .keyError
        | some b =>
            if b.total_files = 0 then .error .zeroDivisionError
            else
              .ok (Store.set store job_id
                { d with
                  batch := some
                    { b with
                      processed_files := processed_files
                      overall_progress :=
                        (processed_files : ℚ) / (b.total_files : ℚ) * 100 } },
                true)

/-- Translation of QueueManager.get_batch_file_paths (internal accessor). -/
def get_batch_file_paths (store : Store) (job_id : String) : Option (List String) :=
  match store job_id with
  | none => none
  | some d => d.file_paths

/-- Translation of QueueManager.delete_job. -/
def delete_job (store : Store) (job_id : String) : Store × Bool :=
  match store job_id with
  | none => (store, false)
  | some _ => (fun k => if k = job_id then none else store k, true)

/-! ### The external read path: QueueManager.get_job

get_job decodes the stored JSON, pops the internal-only keys file_path
and file_paths, and builds the Job response model from the remaining
dict.  The response is modelled at the JSON level so that the key
stripping of the source is visible in the model. -/

/-- A JSON value, as stored in Redis and as returned by the read path. -/
inductive JVal
  | null
  | s (v : String)
  | n (v : ℕ)
  | q (v : ℚ)
  | b (v : Bool)
  | arr (vs : List JVal)
  | obj (fields : List (String × JVal))

/-- JSON encoding of an optional string. -/
def optStr : Option String → JVal
  | none => .null
  | some v => .s v

/-- JSON encoding of a progress sub-object. -/
def progressJ (p : JobProgress) : JVal :=
  .obj [("current_step", .s p.current_step), ("percentage", .q p.percentage),
        ("chunks_processed", .n p.chunks_processed), ("total_chunks", .n p.total_chunks)]

/-- JSON encoding of a metadata sub-object. -/
def metadataJ (m : JobMetadata) : JVal :=
  .obj [("chunks_count", .n m.chunks_count), ("text_length", .n m.text_length),
        ("processing_time_seconds", .q m.processing_time_seconds)]

/-- JSON encoding of one batch file entry. -/
def batchFileJ (f : BatchFileInfo) : JVal :=
  .obj [("name", .s f.name), ("status", .s f.status),
        ("chunks", .n f.chunks), ("error", optStr f.error)]

/-- JSON encoding of the batch sub-object. -/
def batchJ (b : BatchInfo) : JVal :=
  .obj [("total_files", .n b.total_files), ("processed_files", .n b.processed_files),
        ("current_file", optStr b.current_file), ("overall_progress", .q b.overall_progress),
        ("files", .arr (b.files.map batchFileJ))]

/-- The decoded JSON dict of a stored record, key for key: file_path /
file_paths / is_batch / batch appear exactly when the writing code put
them there. -/
def jobDict (d : JobData) : List (String × JVal) :=
  [("job_id", .s d.job_id), ("status", .s (statusValue d.status)),
   ("file_name", .s d.file_name), ("file_type", .s d.file_type)] ++
  (match d.file_path with | some p => [("file_path", .s p)] | none => []) ++
  (match d.file_paths with | some ps => [("file_paths", .arr (ps.map JVal.s))] | none => []) ++
  [("collection_name", .s d.collection_name), ("created_at", .s d.created_at),
   ("started_at", optStr d.started_at), ("completed_at", optStr d.completed_at),
   ("progress", match d.progress with | some p => progressJ p | none => .null),
   ("metadata", match d.metadata with | some m => metadataJ m | none => .null),
   ("error", optStr d.error)] ++
  (if d.is_batch then
    [("is_batch", .b true)] ++
    (match d.batch with | some b => [("batch", batchJ b)] | none => [])
  else [])

/-- Translation of QueueManager.get_job: a missing key is not-found;
otherwise the decoded dict is returned with the internal-only keys
file_path and file_paths popped, which is what the Job response model is
built from. -/
def get_job (store : Store) (job_id : String) : Option (List (String × JVal)) :=
  match store job_id with
  | none => none
  | some d =>
      some ((jobDict d).filter
        (fun kv => !(kv.1 == "file_path") && !(kv.1 == "file_paths")))

/-! ### ChromaDB storage step: store_in_chroma in app/services/embed_utils.py

The embedding provider and the ChromaDB client are external
collaborators; the md5 hash of the source filename is kept as an opaque
function argument.  The single side-effecting call, collection.add, is
modelled as the value returned on the success path, so an error result
means that nothing was submitted to the vector store. -/

/-- A langchain Document as consumed by store_in_chroma: page content
plus a (possibly empty) string-valued metadata dict. -/
structure ChunkDoc where
  page_content : String
  metadata : List (String × String)
deriving DecidableEq, Repr

/-- The while-loop of store_in_chroma that suffixes _1, _2, ... onto an id
until it no longer collides with an already-assigned one.  The Python
loop terminates because the candidates are pairwise distinct and the seen
set is finite; the fuel argument is sized accordingly and the fuel-0 fall
back is unreachable. -/
def resolveCollision : ℕ → List String → String → ℕ → String
  | 0, _, original_id, counter => original_id ++ "_" ++ toString counter
  | fuel + 1, seen, original_id, counter =>
      let cand := if counter = 0 then original_id
                  else original_id ++ "_" ++ toString counter
      if seen.contains cand then resolveCollision fuel seen original_id (counter + 1)
      else cand

/-- The id-generation loop of store_in_chroma: for the i-th document the
base id is collection_name, an 8-character hash of its source_file
metadata (or the string unknown), and i, joined by underscores; a
collision with an earlier id is resolved by a counter suffix and the id
is then recorded as seen. -/
def generateIdsAux (hash : String → String) (collection_name : String) :
    List ChunkDoc → ℕ → List String → List String
  | [], _, _ => []
  | doc :: rest, i, seen =>
      let source_file :=
        if doc.metadata = [] then "unknown"
        else ((doc.metadata.lookup "source_file").getD "unknown")
      let base := collection_name ++ "_" ++ hash source_file ++ "_" ++ toString i
      let chunk_id := resolveCollision (seen.length + 2) seen base 0
      chunk_id :: generateIdsAux hash collection_name rest (i + 1) (chunk_id :: seen)

/-- The metadata-preparation loop of store_in_chroma: an empty metadata
dict is replaced by a default one so that every entry is non-empty. -/
def buildMetadatasAux (collection_name : String) :
    List ChunkDoc → ℕ → List (List (String × String))
  | [], _ => []
  | doc :: rest, i =>
      (if 0 < doc.metadata.length then doc.metadata
       else [("chunk_index", toString i), ("source", collection_name)]) ::
      buildMetadatasAux collection_name rest (i + 1)

/-- The single batched write submitted to collection.add: parallel lists
of contents, ids and metadata entries. -/
structure ChromaWrite where
  documents : List String
  ids : List String
  metadatas : List (List (String × String))
deriving DecidableEq, Repr

/-- Translation of store_in_chroma (app/services/embed_utils.py): check
the API key, build the parallel lists, validate that their lengths agree
and that the ids contain no duplicates (len of the id list versus len of
its set), and only then submit the one batched write.  An error result
models the ValueError raised before collection.add is ever called. -/
def store_in_chroma (hash : String → String) (openai_api_key : Option String)
    (docs : List ChunkDoc) (collection_name : String) :
    Except String ChromaWrite :=
  if (match openai_api_key with | none => true | some k => k = "") then
    .error "OpenAI API key is required for embeddings."
  else
    let documents := docs.map ChunkDoc.page_content
    let ids := generateIdsAux hash collection_name docs 0 []
    let metadatas := buildMetadatasAux collection_name docs 0
    if documents.length ≠ ids.length ∨ documents.length ≠ metadatas.length then
      .error "Data length mismatch"
    else if ids.length ≠ ids.dedup.length then
      .error "Duplicate IDs detected"
    else
      .ok { documents := documents, ids := ids, metadatas := metadatas }

/-! ### Pipeline executor: process_document_task in app/workers/tasks.py

Two views of the task are modelled at different granularity.

The retry view (process_document_attempts) models the Celery
orchestration across attempts: each attempt either succeeds or raises
with some message; on an exception the handler writes FAILED and, when
the message is classified transient and retries remain, schedules the
next attempt after the fixed countdown, which starts by writing
PROCESSING again.

The single-execution view (process_document_exec) models one invocation
in full: the stage structure of the try block, the except handler, and
the finally block that re-reads the stored file path and removes the
uploaded file. -/

/-- Python substring membership, the `needle in hay` test. -/
def strContains (hay needle : String) : Bool :=
  (List.range (hay.data.length + 1)).any
    (fun i => (hay.data.drop i).take needle.data.length = needle.data)

/-- Python str.lower, restricted to the ASCII mapping of Char.toLower. -/
def lowerString (s : String) : String :=
  String.mk (s.data.map Char.toLower)

/-- The transient-error classifier of process_document_task, line 170 of
app/workers/tasks.py: the message contains OpenAI, or contains timeout
case-insensitively. -/
def is_transient (msg : String) : Bool :=
  strContains msg "OpenAI" || strContains (lowerString msg) "timeout"

/-- The Celery max_retries bound of process_document_task. -/
def max_retries : ℕ := 3

/-- The fixed countdown passed to self.retry, in seconds. -/
def retry_countdown_seconds : ℕ := 60

/-- An observable action of the retry orchestration: a status write to
the job store, or the backoff wait before the next attempt. -/
inductive TaskEvent
  | statusWrite (s : JobStatus)
  | retryWait (seconds : ℕ)
deriving DecidableEq, Repr

/-- The retry orchestration of process_document_task.  The script lists
the outcome of each attempt (none is success, some msg an exception with
that message); the second argument is the number of retries Celery still
allows.  Every attempt first writes PROCESSING; a success writes
COMPLETED; an exception writes FAILED in the handler and then, exactly
when the message is transient and a retry remains, waits the fixed
countdown and re-runs. -/
def process_document_attempts :
    List (Option String) → ℕ → List TaskEvent
  | [], _ => []
  | none :: _, _ => [.statusWrite .processing, .statusWrite .completed]
  | some _ :: _, 0 => [.statusWrite .processing, .statusWrite .failed]
  | some msg :: rest, n + 1 =>
      if is_transient msg then
        .statusWrite .processing :: .statusWrite .failed ::
        .retryWait retry_countdown_seconds :: process_document_attempts rest n
      else
        [.statusWrite .processing, .statusWrite .failed]

/-- The job-status writes of a retried run, in order. -/
def process_document_statusTrace (script : List (Option String)) (n : ℕ) :
    List JobStatus :=
  (process_document_attempts script n).filterMap
    (fun e => match e with | .statusWrite s => some s | .retryWait _ => none)

/-- The stages of one execution at which an exception can originate: a
failing store write, or a failure of one of the collaborator stages. -/
inductive PipelineStage
  | statusWrite
  | extraction
  | chunking
  | storing
deriving DecidableEq, Repr, Fintype

/-- The observable circumstances of one execution of
process_document_task: whether the job record is still in the store
(path resolution fails with a job-not-found error when it is not),
whether the uploaded temporary file exists on disk, and the first stage
to raise, if any. -/
structure PipelineEnv where
  jobExists : Bool
  filePresent : Bool
  failAt : Option PipelineStage
deriving DecidableEq, Repr, Fintype

/-- An observable action of one execution: a status write, a progress
write, the removal of the uploaded temporary file, or a raised
exception. -/
inductive ExecEvent
  | statusWrite (s : JobStatus)
  | progressWrite (step : String)
  | removeFile
  | raised (msg : String)
deriving DecidableEq, Repr

/-- The try block of process_document_task, stage by stage: resolve the
stored file path (raising job-not-found when the record is gone), write
PROCESSING and the progress checkpoints, and run extraction, chunking and
storage, stopping at the first stage configured to raise. -/
def pipelineTryEvents (env : PipelineEnv) : List ExecEvent :=
  if env.jobExists = false then [.raised "Job not found"]
  else if env.failAt = some .statusWrite then [.raised "status write failed"]
  else
    [.statusWrite .processing, .progressWrite "text_extraction"] ++
    (if env.failAt = some .extraction then
      [.raised "No text could be extracted from the document"]
    else
      [.progressWrite "text_extraction"] ++
      (if env.failAt = some .chunking then [.raised "chunking failed"]
      else
        [.progressWrite "chunking", .progressWrite "generating_embeddings"] ++
        (if env.failAt = some .storing then [.raised "storing failed"]
        else
          [.progressWrite "storing", .statusWrite .completed,
           .progressWrite "completed"])))

/-- Whether the try block of this execution raises. -/
def pipelineRaises (env : PipelineEnv) : Bool :=
  env.jobExists = false || env.failAt.isSome

/-- One full execution of process_document_task: the try block, then the
except handler (whose FAILED write only lands when the record still
exists), then the finally block, which re-reads the stored file path and
removes the file exactly when the record is still present and the file
exists on disk. -/
def process_document_exec (env : PipelineEnv) : List ExecEvent :=
  pipelineTryEvents env ++
  (if pipelineRaises env && env.jobExists then [.statusWrite .failed] else []) ++
  (if env.jobExists && env.filePresent then [.removeFile] else [])

/-- How many times one execution removes the uploaded temporary file. -/
def process_document_removeCount (env : PipelineEnv) : ℕ :=
  (process_document_exec env).count .removeFile

/-! ### Batch coordinator: process_batch_embedding_task in app/workers/tasks.py

Each file of the batch is processed by the same collaborator stages as
the single-document pipeline; what those stages do is external, so a file
is described by its outcome: success with a chunk count and text length,
or an exception with a message.  The coordinator's bookkeeping (the
per-file status writes, the local success and failure counters, the batch
progress update after each file, and the final status write) is
translated from the source. -/

/-- The outcome of running extraction, chunking and storage for one file
of a batch: none is success with the given chunk count and text length,
some msg is a per-file exception with that message. -/
structure FileOutcome where
  name : String
  result : Option String
  chunks : ℕ
  text_length : ℕ
deriving DecidableEq, Repr

/-- The per-file loop of process_batch_embedding_task, carrying the
1-based loop index and the two local counters.  For each file: mark its
entry processing, run the stages (their outcome is given), mark the entry
completed or failed accordingly, then update the batch progress with the
loop index; a per-file failure does not stop the loop.  A store error
(only the ZeroDivisionError of update_batch_progress, or a KeyError on a
malformed record) escapes like the Python exception would. -/
def processBatchFiles (store : Store) (job_id : String) (idx : ℕ)
    (successful_files failed_files : ℕ) :
    List FileOutcome → Except PyError (Store × ℕ × ℕ)
  | [] => .ok (store, successful_files, failed_files)
  | f :: rest =>
      match update_batch_file_status store job_id f.name "processing" 0 none with
      | .error e => .error e
      | .ok (s1, _) =>
          match (match f.result with
                 | none => update_batch_file_status s1 job_id f.name "completed" f.chunks none
                 | some msg => update_batch_file_status s1 job_id f.name "failed" 0 (some msg)) with
          | .error e => .error e
          | .ok (s2, _) =>
              match update_batch_progress s2 job_id idx with
              | .error e => .error e
              | .ok (s3, _) =>
                  match f.result with
                  | none => processBatchFiles s3 job_id (idx + 1)
                      (successful_files + 1) failed_files rest
                  | some _ => processBatchFiles s3 job_id (idx + 1)
                      successful_files (failed_files + 1) rest

/-- Translation of process_batch_embedding_task, lines 186-399 of
app/workers/tasks.py: write PROCESSING, run the per-file loop, then
derive the final status from the counters (COMPLETED when no file
failed, else FAILED when no file succeeded, else PARTIALLY_COMPLETED),
sum chunks and text length over the completed results, and write the
final status with the batch-level error set to a failed-file count
message exactly when some file failed. -/
def process_batch_embedding_task (store : Store) (job_id : String)
    (files : List FileOutcome) (started_at completed_at : String)
    (processing_time : ℚ) : Except PyError Store :=
  match update_job_status store job_id .processing (some started_at) none none none with
  | .error e => .error e
  | .ok (s1, _) =>
      match processBatchFiles s1 job_id 1 0 0 files with
      | .error e => .error e
      | .ok (s2, successful_files, failed_files) =>
          let final_status :=
            if failed_files = 0 then JobStatus.completed
            else if successful_files = 0 then JobStatus.failed
            else JobStatus.partiallyCompleted
          let completedResults := files.filter (fun f => f.result.isNone)
          let total_chunks := completedResults.foldl (fun a f => a + f.chunks) 0
          let total_text := completedResults.foldl (fun a f => a + f.text_length) 0
          match update_job_status s2 job_id final_status none (some completed_at)
            (if failed_files = 0 then none
             else some (toString failed_files ++ " files failed"))
            (some { chunks_count := total_chunks, text_length := total_text,
                    processing_time_seconds := processing_time }) with
          | .error e => .error e
          | .ok (s3, _) => .ok s3

/-! ### Concrete scenarios used as counterexamples and witnesses -/

/-- Applying one update_job_status call for its store effect, as the
executor does (the boolean result is dropped; the calls in tasks.py are
on existing records and cannot raise). -/
def stepStatus (store : Store) (job_id : String) (st : JobStatus)
    (sa ca er : Option String) (md : Option JobMetadata) : Store :=
  match update_job_status store job_id st sa ca er md with
  | .ok (s', _) => s'
  | .error _ => store

/-- A freshly-created single-document job record. -/
def c4Store0 : Store :=
  (create_job emptyStore "job-1" "doc.pdf" "pdf" "/uploads/doc.pdf" "docs" "t0").1

/-- First attempt enters PROCESSING (tasks.py line 48). -/
def c4Store1 : Store :=
  stepStatus c4Store0 "job-1" .processing (some "t1") none none none

/-- The attempt fails with a transient error: the handler records FAILED
with the message before scheduling the retry (tasks.py line 159). -/
def c4Store2 : Store :=
  stepStatus c4Store1 "job-1" .failed none (some "t2")
    (some "OpenAI connection timeout") none

/-- The retry re-enters PROCESSING (tasks.py line 48 again). -/
def c4Store3 : Store :=
  stepStatus c4Store2 "job-1" .processing (some "t3") none none none

/-- The retry succeeds: COMPLETED is written with metadata and no error
argument (tasks.py line 133). -/
def c4Store4 : Store :=
  stepStatus c4Store3 "job-1" .completed none (some "t4") none
    (some { chunks_count := 12, text_length := 3456, processing_time_seconds := 7 })

/-- A two-file batch upload. -/
def batchFilesExample : List UploadFileInfo :=
  [{ path := "/uploads/a.pdf", name := "a.pdf", ftype := "pdf" },
   { path := "/uploads/b.pdf", name := "b.pdf", ftype := "pdf" }]

/-- The store after creating the two-file batch job. -/
def batchStoreExample : Store :=
  (create_batch_job emptyStore "batch-1" batchFilesExample "col" "t0").1

/-- The store after creating a batch job from an empty file list. -/
def emptyBatchStoreExample : Store :=
  (create_batch_job emptyStore "batch-0" [] "col" "t0").1

/-- Outcomes for the two-file batch: the first file succeeds, the second
fails during its stages. -/
def batchOutcomesExample : List FileOutcome :=
  [{ name := "a.pdf", result := none, chunks := 5, text_length := 100 },
   { name := "b.pdf", result := some "boom", chunks := 0, text_length := 0 }]

/-- A one-chunk document with the metadata produced by the chunker. -/
def chromaDocExample : ChunkDoc :=
  { page_content := "hello world",
    metadata := [("source_file", "Lecture 1_slides.pdf")] }

/-- A stand-in for the truncated md5 hex digest of the source filename. -/
def chromaHashExample : String → String := fun _ => "a1b2c3d4"

/-- The write that store_in_chroma submits for the one-document input. -/
def chromaWriteExample : ChromaWrite :=
  { documents := ["hello world"],
    ids := ["col_a1b2c3d4_0"],
    metadatas := [[("source_file", "Lecture 1_slides.pdf")]] }

/-- Whether a task event is a retry backoff wait. -/
def isRetryWait : TaskEvent → Bool
  | .retryWait _ => true
  | _ => false

/-- Whether a task event is a PROCESSING status write (the start of an
attempt). -/
def isProcessingWrite : TaskEvent → Bool
  | .statusWrite .processing => true
  | _ => false

/-! ### Claim-level predicates -/

/-- The spec's terminal-state invariant on a status-write trace: after a
terminal write, no later write is QUEUED or PROCESSING. -/
def neverRevertsAfterTerminal (tr : List JobStatus) : Prop :=
  tr.Pairwise (fun a b => isTerminal a = true → b ≠ .queued ∧ b ≠ .processing)

/-- The spec's error-field invariant on one record: error is populated
only when the status is FAILED or PARTIALLY_COMPLETED. -/
def errorOnlyOnFailure (d : JobData) : Prop :=
  d.error ≠ none → (d.status = .failed ∨ d.status = .partiallyCompleted)

/-- Well-formedness that every record written by create_job or
create_batch_job satisfies: a record flagged is_batch carries its batch
sub-object. -/
def WFStore (store : Store) : Prop :=
  ∀ jid d, store jid = some d → d.is_batch = true → d.batch ≠ none

/-- The store facts preserved throughout a batch run: the batch record
exists, is flagged is_batch, keeps the total fixed at creation, and its
top-level error is still unset (only the final write may set it). -/
def BatchInv (store : Store) (job_id : String) (total : ℕ) : Prop :=
  ∃ d b, store job_id = some d ∧ d.is_batch = true ∧ d.batch = some b ∧
    b.total_files = total ∧ d.error = none

/-! ### Shared helper lemmas -/

theorem Store.set_self (s : Store) (k : String) (d : JobData) :
    Store.set s k d k = some d := by
  simp [Store.set]

theorem ujs_spec {store : Store} {jid : String} {d : JobData}
    (hd : store jid = some d) (st : JobStatus) (sa ca er : Option String)
    (md : Option JobMetadata) :
    update_job_status store jid st sa ca er md =
      .ok (Store.set store jid
        { d with
          status := st
          started_at := applyOptStr d.started_at sa
          completed_at := applyOptStr d.completed_at ca
          error := applyErrArg d.error er
          metadata := match md with | some m => some m | none => d.metadata },
        true) := by
  simp [update_job_status, hd]

theorem lookup_stripped (k : String) (hk : k = "file_path" ∨ k = "file_paths") :
    ∀ l : List (String × JVal),
      List.lookup k (l.filter
        (fun kv => !(kv.1 == "file_path") && !(kv.1 == "file_paths"))) = none := by
  intro l
  induction l with
  | nil => simp
  | cons a t ih =>
      obtain ⟨a1, a2⟩ := a
      by_cases h1 : a1 = "file_path"
      · simpa [List.filter_cons, h1] using ih
      · by_cases h2 : a1 = "file_paths"
        · simpa [List.filter_cons, h1, h2] using ih
        · have hka : (k == a1) = false := by
            rcases hk with hk | hk <;>
              (subst hk; simp [beq_iff_eq]; intro hc; first | exact h1 hc.symm | exact h2 hc.symm)
          simpa [List.filter_cons, h1, h2, List.lookup, hka] using ih

theorem files_failed_ne_empty (s : String) : s ++ " files failed" ≠ "" := by
  intro h
  have hlen := congrArg String.length h
  rw [String.length_append] at hlen
  have h13 : (" files failed").length = 13 := by decide
  have h0 : ("" : String).length = 0 := by decide
  omega

/-! ### C8: internal file paths are stripped from every external read -/

/-- C8: for every job record (single or batch) returned by the read path
QueueManager.get_job (which also serves the job-status endpoint), the
result contains no file_path and no file_paths key, regardless of the
record's contents: both internal-only keys are popped before the
response is built. -/
theorem C8_no_path_fields (store : Store) (job_id : String)
    (out : List (String × JVal)) (h : get_job store job_id = some out) :
    List.lookup "file_path" out = none ∧ List.lookup "file_paths" out = none := by
  unfold get_job at h
  cases hd : store job_id with
  | none => rw [hd] at h; cases h
  | some d =>
      rw [hd] at h
      injection h with h
      subst h
      exact ⟨lookup_stripped _ (Or.inl rfl) _, lookup_stripped _ (Or.inr rfl) _⟩

/-- Witness for C8 at a concrete single-document record whose stored
dict does carry a file_path. -/
theorem C8_witness :
    ∃ out, get_job c4Store0 "job-1" = some out ∧
      List.lookup "file_path" out = none ∧ List.lookup "file_paths" out = none :=
  ⟨_, rfl, C8_no_path_fields c4Store0 "job-1" _ rfl⟩

/-! ### C5: every operation on a missing job id is a safe no-op -/

/-- C5: for a job_id with no record in the store (never created, deleted,
or TTL-expired), get_job reports not-found and each of the four mutating
operations returns false without raising and without touching the store:
the returned store is the input store itself. -/
theorem C5_missing_job_noop (store : Store) (job_id : String)
    (h : store job_id = none)
    (st : JobStatus) (sa ca er : Option String) (md : Option JobMetadata)
    (step : String) (pct : ℚ) (cp tc : ℕ)
    (fn fstatus : String) (ch : ℕ) (fe : Option String) (pf : ℕ) :
    get_job store job_id = none ∧
    update_job_status store job_id st sa ca er md = .ok (store, false) ∧
    update_job_progress store job_id step pct cp tc = .ok (store, false) ∧
    update_batch_file_status store job_id fn fstatus ch fe = .ok (store, false) ∧
    update_batch_progress store job_id pf = .ok (store, false) := by
  refine ⟨?_, ?_, ?_, ?_, ?_⟩ <;>
    simp [get_job, update_job_status, update_job_progress,
      update_batch_file_status, update_batch_progress, h]

/-- Witness for C5 on the empty store. -/
theorem C5_witness :
    get_job emptyStore "missing" = none ∧
    update_job_status emptyStore "missing" .completed none none none none =
      .ok (emptyStore, false) ∧
    update_job_progress emptyStore "missing" "storing" 90 0 0 =
      .ok (emptyStore, false) ∧
    update_batch_file_status emptyStore "missing" "a.pdf" "completed" 3 none =
      .ok (emptyStore, false) ∧
    update_batch_progress emptyStore "missing" 1 = .ok (emptyStore, false) :=
  C5_missing_job_noop emptyStore "missing" rfl .completed none none none none
    "storing" 90 0 0 "a.pdf" "completed" 3 none 1

/-! ### C9: batch progress is recomputed from the fixed total -/

/-- C9: on every existing batch record with a non-zero total, a
successful update_batch_progress call with argument n stores
processed_files = n and overall_progress = n / total_files * 100, where
total_files is carried over unchanged from the record (it is fixed at
creation and no update writes it); the new overall_progress does not
depend on the previously stored one, which is universally quantified
here. -/
theorem C9_batch_progress_recompute (store : Store) (job_id : String)
    (d : JobData) (b : BatchInfo) (n : ℕ)
    (hd : store job_id = some d) (hib : d.is_batch = true)
    (hb : d.batch = some b) (ht : b.total_files ≠ 0) :
    ∃ d' b',
      update_batch_progress store job_id n =
        .ok (Store.set store job_id d', true) ∧
      d'.batch = some b' ∧
      b'.processed_files = n ∧
      b'.overall_progress = (n : ℚ) / (b.total_files : ℚ) * 100 ∧
      b'.total_files = b.total_files := by
  refine ⟨{ d with batch := some ({ b with
        processed_files := n
        overall_progress := (n : ℚ) / (b.total_files : ℚ) * 100 }) },
    { b with
      processed_files := n
      overall_progress := (n : ℚ) / (b.total_files : ℚ) * 100 },
    ?_, rfl, rfl, rfl, rfl⟩
  simp [update_batch_progress, hd, hib, hb, ht]

/-- Witness for C9 on the concrete two-file batch record. -/
theorem C9_witness :
    ∃ d' b',
      update_batch_progress batchStoreExample "batch-1" 1 =
        .ok (Store.set batchStoreExample "batch-1" d', true) ∧
      d'.batch = some b' ∧
      b'.processed_files = 1 ∧
      b'.overall_progress = ((1 : ℕ) : ℚ) / ((batchFilesExample.length : ℕ) : ℚ) * 100 ∧
      b'.total_files = batchFilesExample.length :=
  C9_batch_progress_recompute batchStoreExample "batch-1" _ _ 1 rfl rfl rfl
    (by decide)

/-! ### C10: the empty batch and the one operation that can raise -/

/-- C10: create_batch_job accepts an empty file list and writes a batch
record with total_files = 0; on that record every update_batch_progress
call raises ZeroDivisionError instead of returning a boolean; and the
other mutating operations never raise on any store (for
update_batch_file_status: on any well-formed store, since a record
flagged is_batch without its batch sub-object would make the Python code
raise KeyError, and no creator writes such a record). -/
theorem C10_empty_batch_division (store : Store) (jid cn ca : String) (n : ℕ)
    (store2 : Store) (hwf : WFStore store2) (jid2 : String)
    (st : JobStatus) (sa caa er : Option String) (md : Option JobMetadata)
    (step : String) (pct : ℚ) (cp tc : ℕ)
    (fn fstatus : String) (ch : ℕ) (fe : Option String) :
    (∃ d b, (create_batch_job store jid [] cn ca).1 jid = some d ∧
      d.batch = some b ∧ b.total_files = 0) ∧
    update_batch_progress (create_batch_job store jid [] cn ca).1 jid n =
      .error .zeroDivisionError ∧
    (∃ r, update_job_status store2 jid2 st sa caa er md = .ok r) ∧
    (∃ r, update_job_progress store2 jid2 step pct cp tc = .ok r) ∧
    (∃ r, update_batch_file_status store2 jid2 fn fstatus ch fe = .ok r) := by
  refine ⟨⟨_, _, Store.set_self _ _ _, rfl, rfl⟩, ?_, ?_, ?_, ?_⟩
  · simp [update_batch_progress, create_batch_job, Store.set]
  · cases h : store2 jid2 <;> simp [update_job_status, h]
  · cases h : store2 jid2 <;> simp [update_job_progress, h]
  · cases h : store2 jid2 with
    | none => simp [update_batch_file_status, h]
    | some d =>
        by_cases hib : d.is_batch = true
        · have hb := hwf jid2 d h hib
          cases hbb : d.batch with
          | none => exact absurd hbb hb
          | some b => simp [update_batch_file_status, h, hib, hbb]
        · simp [update_batch_file_status, h,
            show d.is_batch = false by revert hib; cases d.is_batch <;> simp]

/-- Witness for C10 at the empty-batch store and a concrete well-formed
second store. -/
theorem C10_witness :
    (∃ d b, (create_batch_job emptyStore "batch-0" [] "col" "t0").1 "batch-0" = some d ∧
      d.batch = some b ∧ b.total_files = 0) ∧
    update_batch_progress (create_batch_job emptyStore "batch-0" [] "col" "t0").1
      "batch-0" 1 = .error .zeroDivisionError ∧
    (∃ r, update_job_status batchStoreExample "batch-1" .processing (some "t1")
      none none none = .ok r) ∧
    (∃ r, update_job_progress batchStoreExample "batch-1" "storing" 90 0 0 = .ok r) ∧
    (∃ r, update_batch_file_status batchStoreExample "batch-1" "a.pdf" "processing"
      0 none = .ok r) := by
  refine C10_empty_batch_division emptyStore "batch-0" "col" "t0" 1
    batchStoreExample ?_ "batch-1" .processing (some "t1") none none none
    "storing" 90 0 0 "a.pdf" "processing" 0 none
  intro jid d h hib
  unfold batchStoreExample create_batch_job Store.set at h
  simp only [emptyStore] at h
  split at h
  · injection h with h
    subst h
    simp
  · cases h

/-! ### C2: cleanup of the uploaded temporary file -/

/-- Counterexample to C2 as stated: it is not the case that every
execution with the temporary file present deletes it exactly once.  When
the job record is gone from the store (for example its TTL elapsed
before the worker ran), path resolution fails and the finally block,
which re-reads the stored path, cannot delete the file: the count is 0. -/
theorem C2_counterexample :
    ¬ (∀ env : PipelineEnv, env.filePresent = true →
        process_document_removeCount env = 1) := by
  intro h
  exact absurd
    (h { jobExists := false, filePresent := true, failAt := none } rfl)
    (by decide)

/-- C2 amended: the cleanup is a scoped-resource guarantee conditional on
the stored path being resolvable: as long as the job record still exists,
every exit path (success, or an exception at the status-write,
extraction, chunking or storage stage) deletes the existing temporary
file exactly once and never twice; when the record is gone, or the file
is already absent, nothing is deleted. -/
theorem C2_cleanup_scoped :
    ∀ env : PipelineEnv,
      (env.jobExists = true → env.filePresent = true →
        process_document_removeCount env = 1) ∧
      (env.jobExists = false → process_document_removeCount env = 0) ∧
      (env.filePresent = false → process_document_removeCount env = 0) := by
  decide

/-- Witness for C2 at concrete environments: a run failing at the
storage stage with the record present removes the file once, and a
successful run does too. -/
theorem C2_witness :
    process_document_removeCount
      { jobExists := true, filePresent := true, failAt := some .storing } = 1 ∧
    process_document_removeCount
      { jobExists := true, filePresent := true, failAt := none } = 1 :=
  ⟨(C2_cleanup_scoped
      { jobExists := true, filePresent := true, failAt := some .storing }).1 rfl rfl,
   (C2_cleanup_scoped
      { jobExists := true, filePresent := true, failAt := none }).1 rfl rfl⟩

/-! ### C6: the storage step validates before any write -/

/-- C6: whatever write store_in_chroma submits to the vector store has
content, id and metadata lists of equal length with pairwise-distinct
ids; and whenever the generated lists violate either condition the
function returns an error instead of a write, so the unrecoverable
ValueError is raised before any partial write could occur (the write is
the success value, an error result submits nothing). -/
theorem C6_chroma_write_validated (hash : String → String)
    (openai_api_key : Option String) (docs : List ChunkDoc) (cn : String) :
    (∀ w, store_in_chroma hash openai_api_key docs cn = .ok w →
      w.documents.length = w.ids.length ∧
      w.documents.length = w.metadatas.length ∧
      w.ids.Nodup) ∧
    (¬ ((docs.map ChunkDoc.page_content).length =
          (generateIdsAux hash cn docs 0 []).length ∧
        (docs.map ChunkDoc.page_content).length =
          (buildMetadatasAux cn docs 0).length ∧
        (generateIdsAux hash cn docs 0 []).Nodup) →
      ∃ msg, store_in_chroma hash openai_api_key docs cn = .error msg) := by
  constructor
  · intro w h
    unfold store_in_chroma at h
    split at h
    · cases h
    · dsimp only at h
      split at h
      · cases h
      · split at h
        · cases h
        · rename_i hlen hdup
          push_neg at hlen
          injection h with h
          subst h
          refine ⟨hlen.1, hlen.2, ?_⟩
          have hsub := List.dedup_sublist (generateIdsAux hash cn docs 0 [])
          have heq := hsub.eq_of_length (by omega)
          exact List.dedup_eq_self.mp heq
  · intro hbad
    unfold store_in_chroma
    split
    · exact ⟨_, rfl⟩
    · dsimp only
      split
      · exact ⟨_, rfl⟩
      · split
        · exact ⟨_, rfl⟩
        · rename_i hlen hdup
          push_neg at hlen
          exfalso
          apply hbad
          refine ⟨hlen.1, hlen.2, ?_⟩
          have hsub := List.dedup_sublist (generateIdsAux hash cn docs 0 [])
          have heq := hsub.eq_of_length (by omega)
          exact List.dedup_eq_self.mp heq

/-- Witness for C6: the one-document example passes validation and its
submitted write satisfies the invariants. -/
theorem C6_witness :
    chromaWriteExample.documents.length = chromaWriteExample.ids.length ∧
    chromaWriteExample.documents.length = chromaWriteExample.metadatas.length ∧
    chromaWriteExample.ids.Nodup :=
  (C6_chroma_write_validated chromaHashExample (some "sk") [chromaDocExample]
    "col").1 chromaWriteExample rfl

/-! ### Retry-model lemmas shared by C1 and C7 -/

theorem attempts_nil (n : ℕ) : process_document_attempts [] n = [] := rfl

theorem attempts_success (rest : List (Option String)) (n : ℕ) :
    process_document_attempts (none :: rest) n =
      [.statusWrite .processing, .statusWrite .completed] := rfl

theorem attempts_err_zero (m : String) (rest : List (Option String)) :
    process_document_attempts (some m :: rest) 0 =
      [.statusWrite .processing, .statusWrite .failed] := rfl

theorem attempts_err_succ (m : String) (rest : List (Option String)) (n : ℕ) :
    process_document_attempts (some m :: rest) (n + 1) =
      if is_transient m then
        .statusWrite .processing :: .statusWrite .failed ::
        .retryWait retry_countdown_seconds :: process_document_attempts rest n
      else [.statusWrite .processing, .statusWrite .failed] := rfl

theorem statusTrace_nil (n : ℕ) : process_document_statusTrace [] n = [] := rfl

theorem statusTrace_success (rest : List (Option String)) (n : ℕ) :
    process_document_statusTrace (none :: rest) n = [.processing, .completed] := rfl

theorem statusTrace_err_zero (m : String) (rest : List (Option String)) :
    process_document_statusTrace (some m :: rest) 0 = [.processing, .failed] := rfl

theorem statusTrace_err_succ (m : String) (rest : List (Option String)) (n : ℕ) :
    process_document_statusTrace (some m :: rest) (n + 1) =
      if is_transient m then
        .processing :: .failed :: process_document_statusTrace rest n
      else [.processing, .failed] := by
  unfold process_document_statusTrace
  rw [attempts_err_succ]
  by_cases ht : is_transient m
  · rw [if_pos ht, if_pos ht]
    simp [List.filterMap_cons]
  · rw [if_neg ht, if_neg ht]
    simp [List.filterMap_cons]

theorem statusTrace_chain (script : List (Option String)) (n : ℕ) :
    (process_document_statusTrace script n).Chain'
      (fun a b => b = .processing → a = .failed) := by
  induction script generalizing n with
  | nil => rw [statusTrace_nil]; exact List.chain'_nil
  | cons o rest ih =>
      cases o with
      | none =>
          rw [statusTrace_success, List.chain'_cons]
          exact ⟨fun h => by simp at h, List.chain'_singleton _⟩
      | some m =>
          cases n with
          | zero =>
              rw [statusTrace_err_zero, List.chain'_cons]
              exact ⟨fun h => by simp at h, List.chain'_singleton _⟩
          | succ n =>
              rw [statusTrace_err_succ]
              by_cases ht : is_transient m
              · rw [if_pos ht, List.chain'_cons]
                refine ⟨fun h => by simp at h, ?_⟩
                rw [List.chain'_cons']
                exact ⟨fun y _ _ => rfl, ih n⟩
              · rw [if_neg ht, List.chain'_cons]
                exact ⟨fun h => by simp at h, List.chain'_singleton _⟩

theorem statusTrace_no_queued (script : List (Option String)) (n : ℕ) :
    JobStatus.queued ∉ process_document_statusTrace script n := by
  induction script generalizing n with
  | nil => rw [statusTrace_nil]; simp
  | cons o rest ih =>
      cases o with
      | none => rw [statusTrace_success]; simp
      | some m =>
          cases n with
          | zero => rw [statusTrace_err_zero]; simp
          | succ n =>
              rw [statusTrace_err_succ]
              by_cases ht : is_transient m
              · rw [if_pos ht]
                simp [ih]
              · rw [if_neg ht]; simp

theorem attempts_wait_val (script : List (Option String)) : ∀ (n w : ℕ),
    TaskEvent.retryWait w ∈ process_document_attempts script n →
    w = retry_countdown_seconds := by
  induction script with
  | nil => intro n w h; rw [attempts_nil] at h; simp at h
  | cons o rest ih =>
      intro n w h
      cases o with
      | none => rw [attempts_success] at h; simp at h
      | some m =>
          cases n with
          | zero => rw [attempts_err_zero] at h; simp at h
          | succ n =>
              rw [attempts_err_succ] at h
              by_cases ht : is_transient m
              · rw [if_pos ht] at h
                simp only [List.mem_cons] at h
                rcases h with h | h | h | h
                · cases h
                · cases h
                · simpa using h
                · exact ih n w h
              · rw [if_neg ht] at h
                simp at h

theorem attempts_wait_count (script : List (Option String)) : ∀ n : ℕ,
    (process_document_attempts script n).countP isRetryWait ≤ n := by
  induction script with
  | nil => intro n; rw [attempts_nil]; simp
  | cons o rest ih =>
      intro n
      cases o with
      | none => rw [attempts_success]; simp [List.countP_cons, isRetryWait]
      | some m =>
          cases n with
          | zero => rw [attempts_err_zero]; simp [List.countP_cons, isRetryWait]
          | succ n =>
              rw [attempts_err_succ]
              by_cases ht : is_transient m
              · rw [if_pos ht]
                have := ih n
                simp [List.countP_cons, isRetryWait]
                omega
              · rw [if_neg ht]
                simp [List.countP_cons, isRetryWait]

theorem attempts_proc_count (script : List (Option String)) : ∀ n : ℕ,
    (process_document_attempts script n).countP isProcessingWrite ≤ n + 1 := by
  induction script with
  | nil => intro n; rw [attempts_nil]; simp
  | cons o rest ih =>
      intro n
      cases o with
      | none => rw [attempts_success]; simp [List.countP_cons, isProcessingWrite]
      | some m =>
          cases n with
          | zero =>
              rw [attempts_err_zero]; simp [List.countP_cons, isProcessingWrite]
          | succ n =>
              rw [attempts_err_succ]
              by_cases ht : is_transient m
              · rw [if_pos ht]
                have := ih n
                simp [List.countP_cons, isProcessingWrite]
                omega
              · rw [if_neg ht]
                simp [List.countP_cons, isProcessingWrite]

theorem attempts_nontransient (m : String) (rest : List (Option String)) (n : ℕ)
    (h : is_transient m = false) :
    process_document_attempts (some m :: rest) n =
      [.statusWrite .processing, .statusWrite .failed] := by
  cases n with
  | zero => rfl
  | succ n =>
      rw [attempts_err_succ, if_neg]
      simp [h]

theorem statusTrace_allfail_last (script : List (Option String)) : ∀ n : ℕ,
    (∀ o ∈ script, o.isSome) → script ≠ [] →
    (process_document_statusTrace script n).getLast? = some .failed := by
  induction script with
  | nil => intro n _ h; exact absurd rfl h
  | cons o rest ih =>
      intro n hall _
      cases o with
      | none =>
          have := hall none (List.mem_cons_self _ _)
          simp at this
      | some m =>
          cases n with
          | zero => rw [statusTrace_err_zero]; rfl
          | succ n =>
              rw [statusTrace_err_succ]
              by_cases ht : is_transient m
              · rw [if_pos ht]
                cases htr : process_document_statusTrace rest n with
                | nil => rfl
                | cons x xs =>
                    have hrest : rest ≠ [] := by
                      intro h0
                      subst h0
                      rw [statusTrace_nil] at htr
                      cases htr
                    rw [List.getLast?_cons_cons, List.getLast?_cons_cons, ← htr]
                    exact ih n (fun o ho => hall o (List.mem_cons_of_mem _ ho)) hrest
              · rw [if_neg ht]; rfl

/-! ### C1: terminal states and the retry re-entry -/

/-- Counterexample to C1 as stated: the status-write trace of a run whose
first attempt fails with a transient message and whose retry succeeds is
PROCESSING, FAILED, PROCESSING, COMPLETED — the FAILED write (a terminal
state, recorded by the error handler before it schedules the retry) is
followed by a later PROCESSING write, so the pipeline does set a job back
to PROCESSING from a state already recorded as terminal. -/
theorem C1_counterexample :
    ¬ neverRevertsAfterTerminal
      (process_document_statusTrace [some "timeout", none] max_retries) := by
  intro h
  unfold neverRevertsAfterTerminal at h
  have htr : process_document_statusTrace [some "timeout", none] max_retries =
      [.processing, .failed, .processing, .completed] := by decide
  rw [htr, List.pairwise_cons] at h
  obtain ⟨-, h⟩ := h
  rw [List.pairwise_cons] at h
  obtain ⟨h2, -⟩ := h
  exact (h2 .processing (by simp) rfl).2 rfl

/-- C1 amended: the status never reverts to QUEUED (no write in any run
is QUEUED), and every PROCESSING write other than the first immediately
follows a FAILED write: a retry re-enters PROCESSING, but from the FAILED
state that the handler recorded just before scheduling it, not from a
non-terminal state. -/
theorem C1_terminal_status_reversion (script : List (Option String)) (n : ℕ) :
    JobStatus.queued ∉ process_document_statusTrace script n ∧
    (process_document_statusTrace script n).Chain'
      (fun a b => b = .processing → a = .failed) :=
  ⟨statusTrace_no_queued script n, statusTrace_chain script n⟩

/-- Witness for C1 on the retried-then-successful run. -/
theorem C1_witness :
    JobStatus.queued ∉ process_document_statusTrace [some "timeout", none] max_retries ∧
    (process_document_statusTrace [some "timeout", none] max_retries).Chain'
      (fun a b => b = .processing → a = .failed) :=
  C1_terminal_status_reversion [some "timeout", none] max_retries

/-! ### C7: transient classification and the retry bound -/

/-- C7: in every run of the executor, each backoff wait is exactly the
fixed 60-second countdown; at most max_retries = 3 retries occur, hence
at most 4 PROCESSING entries; an attempt whose message is not transient
under the classifier of line 170 (contains OpenAI, or contains timeout
case-insensitively) ends the run at FAILED with no retry; an attempt with
a transient message is retried: FAILED is recorded, the fixed countdown
elapses, PROCESSING is re-entered; and a run all of whose attempts raise
ends with FAILED as the last status write (retry exhaustion leaves the
job FAILED). -/
theorem C7_retry_policy (script : List (Option String)) (msg : String)
    (rest : List (Option String)) :
    (∀ w, TaskEvent.retryWait w ∈ process_document_attempts script max_retries →
      w = retry_countdown_seconds) ∧
    (process_document_attempts script max_retries).countP isRetryWait ≤ max_retries ∧
    (process_document_attempts script max_retries).countP isProcessingWrite ≤
      max_retries + 1 ∧
    (is_transient msg = false →
      process_document_attempts (some msg :: rest) max_retries =
        [.statusWrite .processing, .statusWrite .failed]) ∧
    (is_transient msg = true →
      (process_document_attempts (some msg :: rest) max_retries).take 3 =
        [.statusWrite .processing, .statusWrite .failed,
         .retryWait retry_countdown_seconds]) ∧
    ((∀ o ∈ script, o.isSome) → script ≠ [] →
      (process_document_statusTrace script max_retries).getLast? = some .failed) := by
  refine ⟨fun w => attempts_wait_val script max_retries w,
    attempts_wait_count script max_retries,
    attempts_proc_count script max_retries,
    fun h => attempts_nontransient msg rest max_retries h,
    fun h => ?_,
    statusTrace_allfail_last script max_retries⟩
  rw [show max_retries = 2 + 1 from rfl, attempts_err_succ, if_pos h]
  rfl

/-- Witness for C7: an unrecoverable message yields no retry; a transient
first attempt schedules the 60-second backoff; a run of four transient
failures exhausts the bound and ends FAILED. -/
theorem C7_witness :
    (process_document_attempts [some "no text"] max_retries).countP isRetryWait ≤
      max_retries ∧
    process_document_attempts (some "no text" :: []) max_retries =
      [.statusWrite .processing, .statusWrite .failed] ∧
    (process_document_attempts (some "OpenAI error" :: []) max_retries).take 3 =
      [.statusWrite .processing, .statusWrite .failed,
       .retryWait retry_countdown_seconds] ∧
    (process_document_statusTrace
      [some "timeout", some "timeout", some "timeout", some "timeout"]
      max_retries).getLast? = some .failed :=
  ⟨(C7_retry_policy [some "no text"] "no text" []).2.1,
   (C7_retry_policy [some "no text"] "no text" []).2.2.2.1 (by decide),
   (C7_retry_policy [some "OpenAI error"] "OpenAI error" []).2.2.2.2.1 (by decide),
   (C7_retry_policy
      [some "timeout", some "timeout", some "timeout", some "timeout"] "x"
      []).2.2.2.2.2 (by decide) (by decide)⟩

/-! ### C4: the error field is never cleared -/

/-- Counterexample to C4 as stated: replaying the executor's own store
writes for a job whose first attempt fails transiently and whose retry
succeeds (create, PROCESSING, FAILED with error, PROCESSING, COMPLETED
with metadata) yields a record that the read path returns with status
completed and the earlier attempt's error still populated, because
update_job_status only writes the error field when the argument is
truthy and never clears it. -/
theorem C4_counterexample :
    ∃ out, get_job c4Store4 "job-1" = some out ∧
      List.lookup "status" out = some (.s "completed") ∧
      List.lookup "error" out = some (.s "OpenAI connection timeout") ∧
      ∃ d, c4Store4 "job-1" = some d ∧ ¬ errorOnlyOnFailure d := by
  refine ⟨_, rfl, rfl, rfl, _, rfl, ?_⟩
  intro h
  rcases h (by decide) with h | h <;> cases h

/-- C4 amended: error is populated only by an update that passes a
non-empty error argument (in the executor, always together with FAILED or
PARTIALLY_COMPLETED), but it then persists across later status writes
that pass no error: any update_job_status call without an error argument
preserves the stored error verbatim, so a job that reaches COMPLETED on a
retry after a failed attempt keeps the earlier attempt's error. -/
theorem C4_error_persistence (store : Store) (jid : String) (d : JobData)
    (hd : store jid = some d) (st : JobStatus) (sa ca : Option String)
    (md : Option JobMetadata) :
    ∃ s', update_job_status store jid st sa ca none md = .ok (s', true) ∧
      ∃ d', s' jid = some d' ∧ d'.error = d.error ∧ d'.status = st := by
  refine ⟨_, ujs_spec hd st sa ca none md, _, Store.set_self _ _ _, ?_, rfl⟩
  rfl

/-- Witness for C4: the COMPLETED write of the successful retry preserves
the error recorded by the earlier FAILED attempt. -/
theorem C4_witness :
    ∃ s', update_job_status c4Store3 "job-1" .completed none (some "t4") none
        (some { chunks_count := 12, text_length := 3456,
                processing_time_seconds := 7 }) = .ok (s', true) ∧
      ∃ d', s' "job-1" = some d' ∧
        d'.error = some "OpenAI connection timeout" ∧ d'.status = .completed :=
  C4_error_persistence c4Store3 "job-1" _ rfl .completed none (some "t4")
    (some { chunks_count := 12, text_length := 3456, processing_time_seconds := 7 })

/-! ### Batch-coordinator lemmas and C3 -/

theorem ujs_inv {store : Store} {jid : String} {total : ℕ}
    (h : BatchInv store jid total) (st : JobStatus) (sa ca : Option String)
    (md : Option JobMetadata) :
    ∃ s', update_job_status store jid st sa ca none md = .ok (s', true) ∧
      BatchInv s' jid total := by
  obtain ⟨d, b, hd, hib, hb, htf, he⟩ := h
  refine ⟨_, ujs_spec hd st sa ca none md, ?_⟩
  exact ⟨_, b, Store.set_self _ _ _, hib, hb, htf, he⟩

theorem ujs_final {store : Store} {jid : String} {d : JobData}
    (hd : store jid = some d) (st : JobStatus) (ca er : Option String)
    (md : Option JobMetadata) :
    ∃ s', update_job_status store jid st none ca er md = .ok (s', true) ∧
      ∃ d', s' jid = some d' ∧ d'.status = st ∧
        d'.error = applyErrArg d.error er :=
  ⟨_, ujs_spec hd st none ca er md, _, Store.set_self _ _ _, rfl, rfl⟩

theorem ubfs_inv {store : Store} {jid : String} {total : ℕ}
    (h : BatchInv store jid total) (fn st : String) (ch : ℕ)
    (er : Option String) :
    ∃ s', update_batch_file_status store jid fn st ch er = .ok (s', true) ∧
      BatchInv s' jid total := by
  obtain ⟨d, b, hd, hib, hb, htf, he⟩ := h
  refine ⟨Store.set store jid
    { d with batch := some ({ b with
        files := updateFileEntry b.files fn st ch er
        current_file := if st = "processing" then some fn else b.current_file }) },
    ?_, ?_⟩
  · simp [update_batch_file_status, hd, hib, hb]
  · exact ⟨_, _, Store.set_self _ _ _, hib, rfl, htf, he⟩

theorem ubp_inv {store : Store} {jid : String} {total : ℕ}
    (h : BatchInv store jid total) (ht : total ≠ 0) (n : ℕ) :
    ∃ s', update_batch_progress store jid n = .ok (s', true) ∧
      BatchInv s' jid total := by
  obtain ⟨d, b, hd, hib, hb, htf, he⟩ := h
  refine ⟨Store.set store jid
    { d with batch := some ({ b with
        processed_files := n
        overall_progress := (n : ℚ) / (b.total_files : ℚ) * 100 }) },
    ?_, ?_⟩
  · have htb : b.total_files ≠ 0 := htf ▸ ht
    simp [update_batch_progress, hd, hib, hb, htb]
  · exact ⟨_, _, Store.set_self _ _ _, hib, rfl, htf, he⟩

theorem processBatchFiles_inv {jid : String} {total : ℕ} :
    ∀ (files : List FileOutcome) (store : Store) (idx sc fc : ℕ),
      BatchInv store jid total → (files = [] ∨ total ≠ 0) →
      ∃ s', processBatchFiles store jid idx sc fc files =
          .ok (s', sc + files.countP (fun f => f.result.isNone),
                   fc + files.countP (fun f => f.result.isSome)) ∧
        BatchInv s' jid total := by
  intro files
  induction files with
  | nil =>
      intro store idx sc fc hinv _
      refine ⟨store, ?_, hinv⟩
      simp [processBatchFiles]
  | cons f rest ih =>
      intro store idx sc fc hinv hne
      have ht : total ≠ 0 := by
        rcases hne with h | h
        · cases h
        · exact h
      obtain ⟨s1, h1, hinv1⟩ := ubfs_inv hinv f.name "processing" 0 none
      rcases hr : f.result with _ | m
      · obtain ⟨s2, h2, hinv2⟩ := ubfs_inv hinv1 f.name "completed" f.chunks none
        obtain ⟨s3, h3, hinv3⟩ := ubp_inv hinv2 ht idx
        obtain ⟨s', hrec, hinv'⟩ :=
          ih s3 (idx + 1) (sc + 1) fc hinv3 (Or.inr ht)
        refine ⟨s', ?_, hinv'⟩
        simp only [processBatchFiles, h1, hr, h2, h3, hrec, List.countP_cons]
        simp [hr]
        omega
      · obtain ⟨s2, h2, hinv2⟩ := ubfs_inv hinv1 f.name "failed" 0 (some m)
        obtain ⟨s3, h3, hinv3⟩ := ubp_inv hinv2 ht idx
        obtain ⟨s', hrec, hinv'⟩ :=
          ih s3 (idx + 1) sc (fc + 1) hinv3 (Or.inr ht)
        refine ⟨s', ?_, hinv'⟩
        simp only [processBatchFiles, h1, hr, h2, h3, hrec, List.countP_cons]
        simp [hr]
        omega

/-- C3: for every batch run that completes its per-file loop (the store
operations all succeed, which holds on any existing batch record whose
total is non-zero or whose file list is empty), the final status written
is COMPLETED when the count of failed files is zero, else FAILED when the
count of successful files is zero, else PARTIALLY_COMPLETED; and whenever
at least one file failed, the batch-level error field is set to the
failed-file count message, never to an individual file's error. -/
theorem C3_batch_final_status (store : Store) (jid : String) (d : JobData)
    (b : BatchInfo) (files : List FileOutcome) (sa ca : String) (pt : ℚ)
    (hd : store jid = some d) (hib : d.is_batch = true) (hb : d.batch = some b)
    (he : d.error = none) (hne : files = [] ∨ b.total_files ≠ 0) :
    ∃ s' d',
      process_batch_embedding_task store jid files sa ca pt = .ok s' ∧
      s' jid = some d' ∧
      d'.status =
        (if files.countP (fun f => f.result.isSome) = 0 then .completed
         else if files.countP (fun f => f.result.isNone) = 0 then .failed
         else .partiallyCompleted) ∧
      (files.countP (fun f => f.result.isSome) = 0 → d'.error = none) ∧
      (files.countP (fun f => f.result.isSome) ≠ 0 →
        d'.error = some (toString (files.countP (fun f => f.result.isSome)) ++
          " files failed")) := by
  have hinv0 : BatchInv store jid b.total_files := ⟨d, b, hd, hib, hb, rfl, he⟩
  obtain ⟨s1, h1, hinv1⟩ := ujs_inv hinv0 .processing (some sa) none none
  obtain ⟨s2, h2, hinv2⟩ := processBatchFiles_inv files s1 1 0 0 hinv1 hne
  obtain ⟨d2, b2, hd2, hib2, hb2, htf2, he2⟩ := hinv2
  obtain ⟨s3, h3, d3, hd3, hst3, her3⟩ :=
    ujs_final hd2
      (if files.countP (fun f => f.result.isSome) = 0 then JobStatus.completed
       else if files.countP (fun f => f.result.isNone) = 0 then JobStatus.failed
       else JobStatus.partiallyCompleted)
      (some ca)
      (if files.countP (fun f => f.result.isSome) = 0 then none
       else some (toString (files.countP (fun f => f.result.isSome)) ++
         " files failed"))
      (some { chunks_count :=
                (files.filter (fun f => f.result.isNone)).foldl
                  (fun a f => a + f.chunks) 0
              text_length :=
                (files.filter (fun f => f.result.isNone)).foldl
                  (fun a f => a + f.text_length) 0
              processing_time_seconds := pt })
  refine ⟨s3, d3, ?_, hd3, hst3, ?_, ?_⟩
  · simp only [process_batch_embedding_task, h1, h2, Nat.zero_add]
    rw [h3]
  · intro h0
    rw [her3, if_pos h0]
    simp [applyErrArg, he2]
  · intro h0
    rw [her3, if_neg h0]
    rw [show applyErrArg d2.error (some (toString
        (files.countP (fun f => f.result.isSome)) ++ " files failed")) =
      some (toString (files.countP (fun f => f.result.isSome)) ++
        " files failed") from by
      simp [applyErrArg, he2, files_failed_ne_empty]]

/-- Witness for C3 on the two-file batch where one file succeeds and one
fails: the final status is PARTIALLY_COMPLETED and the error is the
failed-count message. -/
theorem C3_witness :
    ∃ s' d',
      process_batch_embedding_task batchStoreExample "batch-1"
        batchOutcomesExample "t1" "t2" 3 = .ok s' ∧
      s' "batch-1" = some d' ∧
      d'.status =
        (if batchOutcomesExample.countP (fun f => f.result.isSome) = 0 then
          .completed
         else if batchOutcomesExample.countP (fun f => f.result.isNone) = 0 then
          .failed
         else .partiallyCompleted) ∧
      (batchOutcomesExample.countP (fun f => f.result.isSome) = 0 →
        d'.error = none) ∧
      (batchOutcomesExample.countP (fun f => f.result.isSome) ≠ 0 →
        d'.error = some (toString
          (batchOutcomesExample.countP (fun f => f.result.isSome)) ++
          " files failed")) :=
  C3_batch_final_status batchStoreExample "batch-1" _ _ batchOutcomesExample
    "t1" "t2" 3 rfl rfl rfl rfl (Or.inr (by decide))
